import Mathlib

/-!
Verification development for the fixed-layout EPUB packaging core of the
pdf-to-epub repository (`pdf-to-epub.ts`, with `public/app.jsx` an
almost-identical JavaScript twin).  The generator class (`EPUBGenerator`)
is embedded shallowly: its string-template methods become Lean functions
on a `Book` record, the `zip.file` calls of `generate` become an explicit
ordered list of archive-entry intents, and the implicit global RNG of
`generateUUID` becomes an explicit stream of draws.
-/

namespace PdfToEpub

/-- The apostrophe character (U+0027). -/
def apos : Char := Char.ofNat 39

/-- Shallow embedding of JavaScript `str.replace(/c/g, rep)` for a single
literal character `c`: every occurrence of `c` is replaced by `rep`,
working on the character list of the string. -/
def replaceChar (c : Char) (rep : List Char) : List Char → List Char
  | [] => []
  | a :: rest => (if a = c then rep else [a]) ++ replaceChar c rep rest

/-- `EPUBGenerator.escapeXML`: the five sequential global replaces of the
source, in source order (`&` first, then `<`, `>`, `"`, `'`). -/
def escapeXML (s : List Char) : List Char :=
  replaceChar apos "&apos;".toList
    (replaceChar '"' "&quot;".toList
      (replaceChar '>' "&gt;".toList
        (replaceChar '<' "&lt;".toList
          (replaceChar '&' "&amp;".toList s))))

/-- String-valued wrapper of `escapeXML`, as interpolated into templates. -/
def escXML (s : String) : String := String.mk (escapeXML s.toList)

/-- Per-character view of the escaping map (used only in proofs; the five
sequential replaces are proved equal to one pass of this map). -/
def escapeChar (c : Char) : List Char :=
  if c = '&' then "&amp;".toList
  else if c = '<' then "&lt;".toList
  else if c = '>' then "&gt;".toList
  else if c = '"' then "&quot;".toList
  else if c = apos then "&apos;".toList
  else [c]

/-- Modelled from the spec: "an XML parser recovers the original string
after un-escaping" — standard XML entity un-escaping, decoding the five
predefined entities and leaving every other character in place. -/
def unescapeXML : List Char → List Char
  | [] => []
  | c :: rest =>
    if c = '&' then
      match rest with
      | d1 :: d2 :: d3 :: r3 =>
        if d1 = 'l' ∧ d2 = 't' ∧ d3 = ';' then '<' :: unescapeXML r3
        else if d1 = 'g' ∧ d2 = 't' ∧ d3 = ';' then '>' :: unescapeXML r3
        else
          match r3 with
          | d4 :: r4 =>
            if d1 = 'a' ∧ d2 = 'm' ∧ d3 = 'p' ∧ d4 = ';' then '&' :: unescapeXML r4
            else
              match r4 with
              | d5 :: r5 =>
                if d1 = 'q' ∧ d2 = 'u' ∧ d3 = 'o' ∧ d4 = 't' ∧ d5 = ';' then
                  '"' :: unescapeXML r5
                else if d1 = 'a' ∧ d2 = 'p' ∧ d3 = 'o' ∧ d4 = 's' ∧ d5 = ';' then
                  apos :: unescapeXML r5
                else c :: unescapeXML (d1 :: d2 :: d3 :: d4 :: d5 :: r5)
              | [] => c :: unescapeXML [d1, d2, d3, d4]
          | [] => c :: unescapeXML [d1, d2, d3]
      | r => c :: unescapeXML r
    else c :: unescapeXML rest
termination_by s => s.length
decreasing_by all_goals simp_arith

/-- True when `c` is one of the five XML-special characters. -/
def isSpecialXML (c : Char) : Bool :=
  c = '&' || c = '<' || c = '>' || c = '"' || c = apos

/-- Modelled from the spec: the special characters "appear only as their
escaped entities" — the text contains no raw `<`, `>`, `"`, `'`, and every
`&` begins one of the five predefined entities. -/
def entityClean : List Char → Bool
  | [] => true
  | c :: rest =>
    if c = '&' then
      match rest with
      | d1 :: d2 :: d3 :: r3 =>
        if (d1 = 'l' ∧ d2 = 't' ∧ d3 = ';') ∨ (d1 = 'g' ∧ d2 = 't' ∧ d3 = ';') then
          entityClean r3
        else
          match r3 with
          | d4 :: r4 =>
            if d1 = 'a' ∧ d2 = 'm' ∧ d3 = 'p' ∧ d4 = ';' then entityClean r4
            else
              match r4 with
              | d5 :: r5 =>
                if (d1 = 'q' ∧ d2 = 'u' ∧ d3 = 'o' ∧ d4 = 't' ∧ d5 = ';') ∨
                    (d1 = 'a' ∧ d2 = 'p' ∧ d3 = 'o' ∧ d4 = 's' ∧ d5 = ';') then
                  entityClean r5
                else false
              | [] => false
          | [] => false
      | _ => false
    else !isSpecialXML c && entityClean rest
termination_by s => s.length
decreasing_by all_goals simp_arith

/-- JavaScript `options.x || 'default'` on an optional string field: an
absent field and an empty string (the only falsy string) both yield the
default. -/
def jsOrDefault (o : Option String) (d : String) : String :=
  match o with
  | none => d
  | some s => if s = "" then d else s

/-- The `EPUBOptions` interface; the generator constructor receives a
`Partial<EPUBOptions>`, modelled by optional fields.  `dpi` is carried for
fidelity but never read by the generator itself. -/
structure EPUBOptions where
  title : Option String := none
  author : Option String := none
  language : Option String := none
  dpi : Option Nat := none

/-- The `PageData` record: image payload bytes, pixel dimensions, and the
caller-supplied 1-based page number. -/
structure PageData where
  imageData : List Nat
  width : Nat
  height : Nat
  pageNum : Nat
deriving DecidableEq

/-- The UUID template string of `generateUUID`. -/
def uuidTemplate : List Char := "xxxxxxxx-xxxx-4xxx-yxxx-xxxxxxxxxxxx".toList

/-- The replacement pass of `generateUUID`: each `x` or `y` of the template
consumes one random draw `r` (the source's `(Math.random() * 16) | 0`),
producing `r.toString(16)` for `x` and `((r & 0x3) | 0x8).toString(16)`
for `y`; other characters are kept and consume no draw. -/
def uuidGo (draws : Nat → Nat) : Nat → List Char → List Char
  | _, [] => []
  | k, c :: cs =>
    if c = 'x' then Nat.digitChar (draws k) :: uuidGo draws (k + 1) cs
    else if c = 'y' then Nat.digitChar (draws k &&& 3 ||| 8) :: uuidGo draws (k + 1) cs
    else c :: uuidGo draws k cs

/-- `EPUBGenerator.generateUUID`, with the global RNG made explicit as a
stream of draws. -/
def generateUUID (draws : Nat → Nat) : List Char :=
  uuidGo draws 0 uuidTemplate

/-- The generator's state: metadata fields, the identifier fixed at
construction, and the ordered page list. -/
structure Book where
  title : String
  author : String
  language : String
  uuid : String
  pages : List PageData
deriving DecidableEq

/-- The `EPUBGenerator` constructor: defaults applied through JavaScript
`||`, identifier generated exactly here, empty page list. -/
def createBook (options : EPUBOptions) (draws : Nat → Nat) : Book :=
  { title := jsOrDefault options.title "Untitled"
    author := jsOrDefault options.author "Unknown"
    language := jsOrDefault options.language "en"
    uuid := String.mk (generateUUID draws)
    pages := [] }

/-- `EPUBGenerator.addPage`: appends one `PageData` record. -/
def addPage (b : Book) (imageData : List Nat) (width height pageNum : Nat) : Book :=
  { b with pages := b.pages ++ [⟨imageData, width, height, pageNum⟩] }

/-- Assignment to the (JavaScript-mutable) `title` field. -/
def setTitle (b : Book) (t : String) : Book := { b with title := t }

/-- Assignment to the (JavaScript-mutable) `author` field. -/
def setAuthor (b : Book) (a : String) : Book := { b with author := a }

/-- Assignment to the (JavaScript-mutable) `language` field. -/
def setLanguage (b : Book) (l : String) : Book := { b with language := l }

/-- `String(n).padStart(3, '0')`. -/
def pad3 (n : Nat) : String :=
  String.mk (List.replicate (3 - (Nat.repr n).length) '0') ++ Nat.repr n

/-- `` `${Math.max(...xs)}` `` over a list of exact integers: the spread of
an empty list gives `-Infinity`, which the template renders as the token
`-Infinity`; otherwise the numeric maximum, rendered in decimal (exact for
these integer-valued numbers). -/
def jsMaxNumStr (xs : List Nat) : String :=
  match xs with
  | [] => "-Infinity"
  | x :: r => Nat.repr (r.foldl Nat.max x)

/-- The `original-resolution` content string `` `${maxWidth}x${maxHeight}` ``
of `getContentOPF`. -/
def resolutionContent (pages : List PageData) : String :=
  jsMaxNumStr (pages.map PageData.width) ++ "x" ++ jsMaxNumStr (pages.map PageData.height)

/-- `EPUBGenerator.getMimetype`. -/
def getMimetype : String := "application/epub+zip"

/-- `EPUBGenerator.getContainer`. -/
def getContainer : String :=
  "<?xml version=\"1.0\" encoding=\"UTF-8\"?>\n<container version=\"1.0\" xmlns=\"urn:oasis:names:tc:opendocument:xmlns:container\">\n  <rootfiles>\n    <rootfile full-path=\"OEBPS/content.opf\" media-type=\"application/oebps-package+xml\"/>\n  </rootfiles>\n</container>"

/-- One `<item .../>` line of the package-document manifest; `properties`
is the value of the optional `properties` attribute, `""` when absent. -/
structure ManifestItem where
  id : String
  href : String
  mediaType : String
  properties : String
deriving DecidableEq

/-- The three fixed manifest lines (stylesheet, NCX, navigation document). -/
def fixedManifestItems : List ManifestItem :=
  [⟨"css", "styles/fixed-layout.css", "text/css", ""⟩,
   ⟨"ncx", "toc.ncx", "application/x-dtbncx+xml", ""⟩,
   ⟨"nav", "nav.xhtml", "application/xhtml+xml", "nav"⟩]

/-- The first `pages.forEach` of `getContentOPF`: one markup item per page,
indexed by 0-based position `i`, named from `i + 1`. -/
def pageManifestItems (n : Nat) : List ManifestItem :=
  (List.range n).map fun i =>
    ⟨"page" ++ pad3 (i + 1), "xhtml/page_" ++ pad3 (i + 1) ++ ".xhtml",
     "application/xhtml+xml", ""⟩

/-- The second `pages.forEach` of `getContentOPF`: one image item per page;
only index 0 carries `properties="cover-image"`. -/
def imageManifestItems (n : Nat) : List ManifestItem :=
  (List.range n).map fun i =>
    ⟨"img" ++ pad3 (i + 1), "images/page_" ++ pad3 (i + 1) ++ ".png",
     "image/png", if i = 0 then "cover-image" else ""⟩

/-- The full manifest item list, in the order the source appends the lines. -/
def manifestItems (pages : List PageData) : List ManifestItem :=
  fixedManifestItems ++ pageManifestItems pages.length ++ imageManifestItems pages.length

/-- The spine `idref`s, one per page by 0-based position. -/
def spineIdrefs (n : Nat) : List String :=
  (List.range n).map fun i => "page" ++ pad3 (i + 1)

/-- Renders one manifest item to its source line. -/
def renderManifestItem (it : ManifestItem) : String :=
  "    <item id=\"" ++ it.id ++ "\" href=\"" ++ it.href ++ "\" media-type=\"" ++
    it.mediaType ++ "\"" ++
    (if it.properties = "" then "" else " properties=\"" ++ it.properties ++ "\"") ++ "/>\n"

/-- Renders one spine line. -/
def renderSpineItem (idref : String) : String :=
  "    <itemref idref=\"" ++ idref ++
    "\" properties=\"rendition:layout-pre-paginated rendition:spread-none\"/>\n"

/-- The `urn:uuid:` identifier text interpolated into both the package
document and the NCX. -/
def urnUUID (b : Book) : String := "urn:uuid:" ++ b.uuid

/-- Package-document template up to the identifier text. -/
def opfSeg1 : String :=
  "<?xml version=\"1.0\" encoding=\"UTF-8\"?>\n<package xmlns=\"http://www.idpf.org/2007/opf\" version=\"3.0\" unique-identifier=\"bookid\" prefix=\"rendition: http://www.idpf.org/vocab/rendition/#\">\n  <metadata xmlns:dc=\"http://purl.org/dc/elements/1.1/\" xmlns:opf=\"http://www.idpf.org/2007/opf\">\n    <dc:identifier id=\"bookid\">"

/-- Package-document template between identifier and title. -/
def opfSeg2 : String := "</dc:identifier>\n    <dc:title>"

/-- Package-document template between title and language. -/
def opfSeg3 : String := "</dc:title>\n    <dc:language>"

/-- Package-document template between language and creator. -/
def opfSeg4 : String := "</dc:language>\n    <dc:creator>"

/-- Package-document template between creator and timestamp. -/
def opfSeg5 : String := "</dc:creator>\n    <meta property=\"dcterms:modified\">"

/-- Package-document template between timestamp and resolution. -/
def opfSeg6 : String :=
  "</meta>\n    <meta property=\"rendition:layout\">pre-paginated</meta>\n    <meta property=\"rendition:orientation\">portrait</meta>\n    <meta property=\"rendition:spread\">none</meta>\n    <meta name=\"fixed-layout\" content=\"true\"/>\n    <meta name=\"original-resolution\" content=\""

/-- Package-document manifest, spine and guide after the resolution. -/
def opfTail (pages : List PageData) : String :=
  "\"/>\n  </metadata>\n  \n  <manifest>\n" ++
    String.join ((manifestItems pages).map renderManifestItem) ++
    "  </manifest>\n  \n  <spine toc=\"ncx\" page-progression-direction=\"ltr\">\n" ++
    String.join ((spineIdrefs pages.length).map renderSpineItem) ++
    "  </spine>\n  \n  <guide>\n    <reference type=\"cover\" title=\"Cover\" href=\"xhtml/page_001.xhtml\"/>\n  </guide>\n</package>"

/-- `EPUBGenerator.getContentOPF`; the wall-clock timestamp `now` is passed
in explicitly (the source computes it from `Date`). -/
def getContentOPF (b : Book) (now : String) : String :=
  opfSeg1 ++ urnUUID b ++ opfSeg2 ++ escXML b.title ++ opfSeg3 ++ b.language ++
    opfSeg4 ++ escXML b.author ++ opfSeg5 ++ now ++ opfSeg6 ++
    resolutionContent b.pages ++ opfTail b.pages

/-- One `navPoint` of the NCX: id `navpoint${i+1}`, numeric `playOrder`,
label text, and `content src`. -/
structure NavPoint where
  id : String
  playOrder : Nat
  label : String
  src : String
deriving DecidableEq

/-- The `pages.forEach` of `getNCX`: one navigation point per page, built
solely from the 0-based position `i`. -/
def ncxNavPoints (pages : List PageData) : List NavPoint :=
  (List.range pages.length).map fun i =>
    ⟨"navpoint" ++ Nat.repr (i + 1), i + 1, "Page " ++ Nat.repr (i + 1),
     "xhtml/page_" ++ pad3 (i + 1) ++ ".xhtml"⟩

/-- Renders one navPoint to its source lines. -/
def renderNavPoint (np : NavPoint) : String :=
  "    <navPoint id=\"" ++ np.id ++ "\" playOrder=\"" ++ Nat.repr np.playOrder ++
    "\">\n      <navLabel>\n        <text>" ++ np.label ++
    "</text>\n      </navLabel>\n      <content src=\"" ++ np.src ++
    "\"/>\n    </navPoint>\n"

/-- The `dtb:totalPageCount` content of `getNCX` (`${this.pages.length}`). -/
def ncxTotalPageCount (pages : List PageData) : Nat := pages.length

/-- The `dtb:maxPageNumber` content of `getNCX` (`${this.pages.length}`). -/
def ncxMaxPageNumber (pages : List PageData) : Nat := pages.length

/-- NCX template up to the identifier text. -/
def ncxSeg1 : String :=
  "<?xml version=\"1.0\" encoding=\"UTF-8\"?>\n<!DOCTYPE ncx PUBLIC \"-//NISO//DTD ncx 2005-1//EN\" \"http://www.daisy.org/z3986/2005/ncx-2005-1.dtd\">\n<ncx xmlns=\"http://www.daisy.org/z3986/2005/ncx/\" version=\"2005-1\">\n  <head>\n    <meta name=\"dtb:uid\" content=\""

/-- NCX template between identifier and total page count. -/
def ncxSeg2 : String :=
  "\"/>\n    <meta name=\"dtb:depth\" content=\"1\"/>\n    <meta name=\"dtb:totalPageCount\" content=\""

/-- NCX template between total page count and max page number. -/
def ncxSeg3 : String := "\"/>\n    <meta name=\"dtb:maxPageNumber\" content=\""

/-- NCX template between max page number and document title. -/
def ncxSeg4 : String := "\"/>\n  </head>\n  <docTitle>\n    <text>"

/-- NCX template between document title and the navigation map. -/
def ncxSeg5 : String := "</text>\n  </docTitle>\n  <navMap>\n"

/-- `EPUBGenerator.getNCX`. -/
def getNCX (b : Book) : String :=
  ncxSeg1 ++ urnUUID b ++ ncxSeg2 ++
    Nat.repr (ncxTotalPageCount b.pages) ++ ncxSeg3 ++
    Nat.repr (ncxMaxPageNumber b.pages) ++ ncxSeg4 ++ escXML b.title ++ ncxSeg5 ++
    String.join ((ncxNavPoints b.pages).map renderNavPoint) ++
    "  </navMap>\n</ncx>"

/-- One TOC line of `getNav`. -/
def navTocLine (i : Nat) : String :=
  "      <li><a href=\"xhtml/page_" ++ pad3 (i + 1) ++ ".xhtml\">Page " ++
    Nat.repr (i + 1) ++ "</a></li>\n"

/-- One page-list line of `getNav`. -/
def navPageListLine (i : Nat) : String :=
  "      <li><a href=\"xhtml/page_" ++ pad3 (i + 1) ++ ".xhtml\">" ++
    Nat.repr (i + 1) ++ "</a></li>\n"

/-- `EPUBGenerator.getNav`. -/
def getNav (b : Book) : String :=
  "<?xml version=\"1.0\" encoding=\"UTF-8\"?>\n<!DOCTYPE html>\n<html xmlns=\"http://www.w3.org/1999/xhtml\" xmlns:epub=\"http://www.idpf.org/2007/ops\" xml:lang=\"" ++
    b.language ++
    "\">\n<head>\n  <meta charset=\"UTF-8\"/>\n  <title>Table of Contents</title>\n  <link rel=\"stylesheet\" type=\"text/css\" href=\"styles/fixed-layout.css\"/>\n</head>\n<body>\n  <nav epub:type=\"toc\" id=\"toc\">\n    <h1>Contents</h1>\n    <ol>\n" ++
    String.join ((List.range b.pages.length).map navTocLine) ++
    "    </ol>\n  </nav>\n  <nav epub:type=\"page-list\">\n    <ol>\n" ++
    String.join ((List.range b.pages.length).map navPageListLine) ++
    "    </ol>\n  </nav>\n</body>\n</html>"

/-- `EPUBGenerator.getCSS` (braces written as \x7b/\x7d escapes). -/
def getCSS : String :=
  "@charset \"UTF-8\";\n\nhtml, body \x7b\n  margin: 0;\n  padding: 0;\n  width: 100%;\n  height: 100%;\n  overflow: hidden;\n\x7d\n\nbody \x7b\n  background-color: #ffffff;\n\x7d\n\n.page-image \x7b\n  width: 100%;\n  height: 100%;\n  object-fit: contain;\n  display: block;\n\x7d\n\ndiv.page-container \x7b\n  width: 100%;\n  height: 100%;\n  margin: 0;\n  padding: 0;\n  position: absolute;\n  top: 0;\n  left: 0;\n\x7d"

/-- `EPUBGenerator.getPageXHTML`; `lang` is the generator's `this.language`. -/
def getPageXHTML (lang : String) (pageNum width height : Nat) : String :=
  "<?xml version=\"1.0\" encoding=\"UTF-8\"?>\n<!DOCTYPE html>\n<html xmlns=\"http://www.w3.org/1999/xhtml\" xmlns:epub=\"http://www.idpf.org/2007/ops\" xml:lang=\"" ++
    lang ++
    "\">\n<head>\n  <meta charset=\"UTF-8\"/>\n  <meta name=\"viewport\" content=\"width=" ++
    Nat.repr width ++ ", height=" ++ Nat.repr height ++
    "\"/>\n  <title>Page " ++ Nat.repr pageNum ++
    "</title>\n  <link rel=\"stylesheet\" type=\"text/css\" href=\"../styles/fixed-layout.css\"/>\n  <style type=\"text/css\">\n    html, body \x7b\n      width: " ++
    Nat.repr width ++ "px;\n      height: " ++ Nat.repr height ++
    "px;\n      margin: 0;\n      padding: 0;\n    \x7d\n  </style>\n</head>\n<body>\n  <div class=\"page-container\">\n    <img src=\"../images/page_" ++
    pad3 pageNum ++ ".png\" alt=\"Page " ++ Nat.repr pageNum ++
    "\" class=\"page-image\"/>\n  </div>\n</body>\n</html>"

/-- The payload of one archive entry: document text or raw image bytes. -/
inductive ZipData where
  | text (s : String)
  | bin (b : List Nat)
deriving DecidableEq

/-- One `zip.file` intent handed to the archive writer, in call order;
`store` records whether the call passed the explicit
`{ compression: 'STORE' }` directive. -/
structure ZipEntry where
  name : String
  data : ZipData
  store : Bool
deriving DecidableEq

/-- Archive name of a page's markup entry (from the caller-supplied
`page.pageNum`). -/
def xhtmlEntryName (n : Nat) : String :=
  "OEBPS/xhtml/page_" ++ pad3 n ++ ".xhtml"

/-- Archive name of a page's image entry (from the caller-supplied
`page.pageNum`). -/
def imageEntryName (n : Nat) : String :=
  "OEBPS/images/page_" ++ pad3 n ++ ".png"

/-- The per-page loop body of `generate`: for each page, first its markup
entry, then its image entry. -/
def pageEntries (lang : String) : List PageData → List ZipEntry
  | [] => []
  | p :: ps =>
    ⟨xhtmlEntryName p.pageNum, .text (getPageXHTML lang p.pageNum p.width p.height), false⟩ ::
    ⟨imageEntryName p.pageNum, .bin p.imageData, false⟩ ::
    pageEntries lang ps

/-- The six fixed entries `generate` adds before the page loop, in call
order; only `mimetype` carries the STORE directive. -/
def fixedEntries (b : Book) (now : String) : List ZipEntry :=
  [⟨"mimetype", .text getMimetype, true⟩,
   ⟨"META-INF/container.xml", .text getContainer, false⟩,
   ⟨"OEBPS/content.opf", .text (getContentOPF b now), false⟩,
   ⟨"OEBPS/toc.ncx", .text (getNCX b), false⟩,
   ⟨"OEBPS/nav.xhtml", .text (getNav b), false⟩,
   ⟨"OEBPS/styles/fixed-layout.css", .text getCSS, false⟩]

/-- `EPUBGenerator.generate`: the ordered sequence of entries handed to
the archive writer. -/
def generateEntries (b : Book) (now : String) : List ZipEntry :=
  fixedEntries b now ++ pageEntries b.language b.pages

/-- The six fixed entry names, in order. -/
def fixedEntryNames : List String :=
  ["mimetype", "META-INF/container.xml", "OEBPS/content.opf", "OEBPS/toc.ncx",
   "OEBPS/nav.xhtml", "OEBPS/styles/fixed-layout.css"]

/-- Resolves an `OEBPS`-relative reference against the archive root. -/
def resolveOEBPS (href : String) : String := "OEBPS/" ++ href

/-- Every page-file reference the control documents make, resolved to
archive-root paths: manifest hrefs (markup and image), NCX `content src`
values, and navigation-document hrefs (TOC and page-list). -/
def referencedPageFiles (b : Book) : List String :=
  ((pageManifestItems b.pages.length).map fun it => resolveOEBPS it.href) ++
  ((imageManifestItems b.pages.length).map fun it => resolveOEBPS it.href) ++
  ((ncxNavPoints b.pages).map fun np => resolveOEBPS np.src) ++
  ((List.range b.pages.length).map fun i =>
    resolveOEBPS ("xhtml/page_" ++ pad3 (i + 1) ++ ".xhtml"))

/-- The sixteen lowercase hex digits JavaScript `toString(16)` can emit. -/
def hexDigits : List Char := "0123456789abcdef".toList

/-- The four possible variant-nibble digits `(r & 0x3) | 0x8` can yield. -/
def variantDigits : List Char := "89ab".toList

/-- Modelled from the spec: one template position of the required
version/variant pattern — an `x` must hold a hex digit, the `y` must hold
one of `8`, `9`, `a`, `b`, and every other template character stands for
itself. -/
def uuidCharOk (t u : Char) : Bool :=
  if t = 'x' then hexDigits.contains u
  else if t = 'y' then variantDigits.contains u
  else u = t

/-- A stub PNG payload (the PNG signature bytes); the generator treats
image bytes as opaque. -/
def pngStub : List Nat := [137, 80, 78, 71, 13, 10, 26, 10]

/-- Scenario-A style sample: one 300x400 page, numbered 1. -/
def sampleBook1 : Book :=
  ⟨"Test", "Author & Co.", "en", "u-1", [⟨pngStub, 300, 400, 1⟩]⟩

/-- Two pages numbered densely 1, 2 in insertion order. -/
def sampleBook2 : Book :=
  ⟨"T", "A", "en", "u-2", [⟨pngStub, 300, 400, 1⟩, ⟨pngStub, 310, 410, 2⟩]⟩

/-- Two pages whose caller-supplied numbers are swapped (2 then 1). -/
def sampleBookSwap : Book :=
  ⟨"T", "A", "en", "u-3", [⟨pngStub, 300, 400, 2⟩, ⟨pngStub, 310, 410, 1⟩]⟩

/-- A Book whose page list is empty at generation time. -/
def sampleBookEmpty : Book := ⟨"T", "A", "en", "u-4", []⟩

/-- Twelve pages numbered densely 1..12. -/
def sampleBook12 : Book :=
  ⟨"T", "A", "en", "u-5", (List.range 12).map fun i => ⟨pngStub, 300, 400, i + 1⟩⟩

theorem unescapeXML_nil : unescapeXML [] = [] := by
  rw [unescapeXML.eq_def]

theorem unescape_amp (t : List Char) :
    unescapeXML ('&' :: 'a' :: 'm' :: 'p' :: ';' :: t) = '&' :: unescapeXML t := by
  conv_lhs => rw [unescapeXML.eq_def]
  simp

theorem unescape_lt (t : List Char) :
    unescapeXML ('&' :: 'l' :: 't' :: ';' :: t) = '<' :: unescapeXML t := by
  conv_lhs => rw [unescapeXML.eq_def]
  simp

theorem unescape_gt (t : List Char) :
    unescapeXML ('&' :: 'g' :: 't' :: ';' :: t) = '>' :: unescapeXML t := by
  conv_lhs => rw [unescapeXML.eq_def]
  simp

theorem unescape_quot (t : List Char) :
    unescapeXML ('&' :: 'q' :: 'u' :: 'o' :: 't' :: ';' :: t) = '"' :: unescapeXML t := by
  conv_lhs => rw [unescapeXML.eq_def]
  simp

theorem unescape_apos (t : List Char) :
    unescapeXML ('&' :: 'a' :: 'p' :: 'o' :: 's' :: ';' :: t) = apos :: unescapeXML t := by
  conv_lhs => rw [unescapeXML.eq_def]
  simp

theorem unescape_other (t : List Char) (c : Char) (h1 : c ≠ '&') :
    unescapeXML (c :: t) = c :: unescapeXML t := by
  conv_lhs => rw [unescapeXML.eq_def]
  simp [h1]

theorem entityClean_nil : entityClean [] = true := by
  rw [entityClean.eq_def]

theorem entityClean_amp (t : List Char) :
    entityClean ('&' :: 'a' :: 'm' :: 'p' :: ';' :: t) = entityClean t := by
  conv_lhs => rw [entityClean.eq_def]
  simp

theorem entityClean_lt (t : List Char) :
    entityClean ('&' :: 'l' :: 't' :: ';' :: t) = entityClean t := by
  conv_lhs => rw [entityClean.eq_def]
  simp

theorem entityClean_gt (t : List Char) :
    entityClean ('&' :: 'g' :: 't' :: ';' :: t) = entityClean t := by
  conv_lhs => rw [entityClean.eq_def]
  simp

theorem entityClean_quot (t : List Char) :
    entityClean ('&' :: 'q' :: 'u' :: 'o' :: 't' :: ';' :: t) = entityClean t := by
  conv_lhs => rw [entityClean.eq_def]
  simp

theorem entityClean_apos (t : List Char) :
    entityClean ('&' :: 'a' :: 'p' :: 'o' :: 's' :: ';' :: t) = entityClean t := by
  conv_lhs => rw [entityClean.eq_def]
  simp

theorem entityClean_other (t : List Char) (c : Char) (h : isSpecialXML c = false) :
    entityClean (c :: t) = entityClean t := by
  have h1 : c ≠ '&' := by
    intro hc; rw [hc] at h; simp [isSpecialXML] at h
  conv_lhs => rw [entityClean.eq_def]
  simp [h1, h]

theorem replaceChar_append (c : Char) (rep : List Char) (l1 l2 : List Char) :
    replaceChar c rep (l1 ++ l2) = replaceChar c rep l1 ++ replaceChar c rep l2 := by
  induction l1 with
  | nil => rfl
  | cons a t ih => simp [replaceChar, ih]

theorem escapeXML_append (l1 l2 : List Char) :
    escapeXML (l1 ++ l2) = escapeXML l1 ++ escapeXML l2 := by
  simp [escapeXML, replaceChar_append]

theorem escapeXML_single (c : Char) : escapeXML [c] = escapeChar c := by
  by_cases h1 : c = '&'
  · subst h1; decide
  · by_cases h2 : c = '<'
    · subst h2; decide
    · by_cases h3 : c = '>'
      · subst h3; decide
      · by_cases h4 : c = '"'
        · subst h4; decide
        · by_cases h5 : c = apos
          · subst h5; decide
          · simp [escapeXML, replaceChar, escapeChar, h1, h2, h3, h4, h5]

theorem escapeXML_flat (s : List Char) : escapeXML s = s.flatMap escapeChar := by
  induction s with
  | nil => rfl
  | cons c t ih =>
    have hc : (c :: t) = [c] ++ t := rfl
    rw [hc, escapeXML_append, escapeXML_single, ih]
    simp

theorem entityClean_escape (s : List Char) : entityClean (escapeXML s) = true := by
  rw [escapeXML_flat]
  induction s with
  | nil => simpa using entityClean_nil
  | cons c t ih =>
    have hflat : (c :: t).flatMap escapeChar = escapeChar c ++ t.flatMap escapeChar := by
      simp
    rw [hflat]
    by_cases h1 : c = '&'
    · subst h1
      have he : escapeChar '&' = ['&', 'a', 'm', 'p', ';'] := rfl
      rw [he]
      simpa [entityClean_amp] using ih
    · by_cases h2 : c = '<'
      · subst h2
        have he : escapeChar '<' = ['&', 'l', 't', ';'] := rfl
        rw [he]
        simpa [entityClean_lt] using ih
      · by_cases h3 : c = '>'
        · subst h3
          have he : escapeChar '>' = ['&', 'g', 't', ';'] := rfl
          rw [he]
          simpa [entityClean_gt] using ih
        · by_cases h4 : c = '"'
          · subst h4
            have he : escapeChar '"' = ['&', 'q', 'u', 'o', 't', ';'] := rfl
            rw [he]
            simpa [entityClean_quot] using ih
          · by_cases h5 : c = apos
            · subst h5
              have he : escapeChar apos = ['&', 'a', 'p', 'o', 's', ';'] := rfl
              rw [he]
              simpa [entityClean_apos] using ih
            · have he : escapeChar c = [c] := by
                simp [escapeChar, h1, h2, h3, h4, h5]
              rw [he]
              have hs : isSpecialXML c = false := by
                simp [isSpecialXML, h1, h2, h3, h4, h5]
              simpa [entityClean_other _ c hs] using ih

theorem unescape_escape (s : List Char) : unescapeXML (escapeXML s) = s := by
  rw [escapeXML_flat]
  induction s with
  | nil => simpa using unescapeXML_nil
  | cons c t ih =>
    have hflat : (c :: t).flatMap escapeChar = escapeChar c ++ t.flatMap escapeChar := by
      simp
    rw [hflat]
    by_cases h1 : c = '&'
    · subst h1
      have he : escapeChar '&' = ['&', 'a', 'm', 'p', ';'] := rfl
      rw [he]
      simpa [unescape_amp] using ih
    · by_cases h2 : c = '<'
      · subst h2
        have he : escapeChar '<' = ['&', 'l', 't', ';'] := rfl
        rw [he]
        simpa [unescape_lt] using ih
      · by_cases h3 : c = '>'
        · subst h3
          have he : escapeChar '>' = ['&', 'g', 't', ';'] := rfl
          rw [he]
          simpa [unescape_gt] using ih
        · by_cases h4 : c = '"'
          · subst h4
            have he : escapeChar '"' = ['&', 'q', 'u', 'o', 't', ';'] := rfl
            rw [he]
            simpa [unescape_quot] using ih
          · by_cases h5 : c = apos
            · subst h5
              have he : escapeChar apos = ['&', 'a', 'p', 'o', 's', ';'] := rfl
              rw [he]
              simpa [unescape_apos] using ih
            · have he : escapeChar c = [c] := by
                simp [escapeChar, h1, h2, h3, h4, h5]
              rw [he]
              simpa [unescape_other _ c h1] using ih

theorem pageEntries_store (lang : String) (ps : List PageData) :
    ∀ e ∈ pageEntries lang ps, e.store = false := by
  induction ps with
  | nil => intro e he; simp [pageEntries] at he
  | cons p t ih =>
    intro e he
    simp only [pageEntries, List.mem_cons] at he
    rcases he with h | h | h
    · rw [h]
    · rw [h]
    · exact ih e h


/-- C4: every occurrence of `&`, `<`, `>`, `"`, `'` in a title or author
string appears in the emitted package-document text only as its escaped
entity, standard XML un-escaping recovers the original string exactly,
and the package document embeds exactly these escaped texts at the
`dc:title` and `dc:creator` positions. -/
theorem c4_escape_roundtrip :
    (∀ s : List Char,
      entityClean (escapeXML s) = true ∧ unescapeXML (escapeXML s) = s) ∧
    (∀ (b : Book) (now : String), ∃ pre mid post : String,
      getContentOPF b now =
        pre ++ String.mk (escapeXML b.title.toList) ++ mid ++
          String.mk (escapeXML b.author.toList) ++ post) := by
  constructor
  · intro s
    exact ⟨entityClean_escape s, unescape_escape s⟩
  · intro b now
    refine ⟨opfSeg1 ++ urnUUID b ++ opfSeg2,
      opfSeg3 ++ b.language ++ opfSeg4,
      opfSeg5 ++ now ++ opfSeg6 ++ resolutionContent b.pages ++ opfTail b.pages, ?_⟩
    simp [getContentOPF, escXML, String.append_assoc]

/-- C1: the first entry handed to the archive writer is named `mimetype`,
its content is exactly `application/epub+zip`, it carries the explicit
store (no compression) directive, and no other entry carries that
directive. -/
theorem c1_mimetype_first_store (b : Book) (now : String) :
    (generateEntries b now).head? =
      some ⟨"mimetype", ZipData.text "application/epub+zip", true⟩ ∧
    ∀ e ∈ (generateEntries b now).tail, e.store = false := by
  constructor
  · rfl
  · intro e he
    have hsplit :
        e ∈ ([⟨"META-INF/container.xml", .text getContainer, false⟩,
              ⟨"OEBPS/content.opf", .text (getContentOPF b now), false⟩,
              ⟨"OEBPS/toc.ncx", .text (getNCX b), false⟩,
              ⟨"OEBPS/nav.xhtml", .text (getNav b), false⟩,
              ⟨"OEBPS/styles/fixed-layout.css", .text getCSS, false⟩] : List ZipEntry) ∨
          e ∈ pageEntries b.language b.pages := by
      simpa [generateEntries, fixedEntries, or_assoc] using he
    rcases hsplit with h | h
    · fin_cases h <;> rfl
    · exact pageEntries_store b.language b.pages e h

/-- C1 witness: the invariant evaluated at the one-page sample book. -/
theorem c1_mimetype_first_store_witness :
    (generateEntries sampleBook1 "2024-01-01T00:00:00Z").head? =
      some ⟨"mimetype", ZipData.text "application/epub+zip", true⟩ ∧
    ∀ e ∈ (generateEntries sampleBook1 "2024-01-01T00:00:00Z").tail, e.store = false :=
  c1_mimetype_first_store sampleBook1 "2024-01-01T00:00:00Z"

/-- C10: a Book constructed with an explicit empty-string title, author or
language carries the corresponding default, exactly as when the option is
absent. -/
theorem c10_empty_string_defaults (o : EPUBOptions) (draws : Nat → Nat) :
    (createBook { o with title := some "" } draws).title = "Untitled" ∧
    (createBook { o with author := some "" } draws).author = "Unknown" ∧
    (createBook { o with language := some "" } draws).language = "en" ∧
    createBook { o with title := some "" } draws =
      createBook { o with title := none } draws ∧
    createBook { o with author := some "" } draws =
      createBook { o with author := none } draws ∧
    createBook { o with language := some "" } draws =
      createBook { o with language := none } draws := by
  refine ⟨rfl, rfl, rfl, rfl, rfl, rfl⟩

/-- C2 counterexample: for the empty-page-list Book the code neither fails
nor declares resolution `0x0`: generation silently succeeds with the six
fixed entries and the declared resolution is the non-numeric token
`-Infinityx-Infinity`. -/
theorem c2_counterexample :
    resolutionContent sampleBookEmpty.pages ≠ "0x0" ∧
    resolutionContent sampleBookEmpty.pages = "-Infinityx-Infinity" ∧
    (generateEntries sampleBookEmpty "2024-01-01T00:00:00Z").length = 6 := by
  refine ⟨by decide, by decide, rfl⟩

/-- C2 amended: for every Book whose page list is empty at generation
time, generation succeeds silently, emits exactly the six fixed entries
(zero page entries), and the package document's declared resolution is
the non-numeric token `-Infinityx-Infinity` (JavaScript `Math.max()` over
an empty spread). -/
theorem c2_empty_book_amended (b : Book) (now : String) (h : b.pages = []) :
    (generateEntries b now).map ZipEntry.name = fixedEntryNames ∧
    resolutionContent b.pages = "-Infinityx-Infinity" ∧
    ∃ pre post : String, getContentOPF b now = pre ++ "-Infinityx-Infinity" ++ post := by
  have hres : resolutionContent b.pages = "-Infinityx-Infinity" := by
    rw [h]; decide
  refine ⟨?_, hres, ?_⟩
  · simp [generateEntries, fixedEntries, fixedEntryNames, pageEntries, h]
  · refine ⟨opfSeg1 ++ urnUUID b ++ opfSeg2 ++ escXML b.title ++ opfSeg3 ++ b.language ++
      opfSeg4 ++ escXML b.author ++ opfSeg5 ++ now ++ opfSeg6, opfTail b.pages, ?_⟩
    rw [getContentOPF, hres]
    try simp [String.append_assoc]

/-- C2 amended witness: evaluated at the concrete empty Book. -/
theorem c2_empty_book_amended_witness :
    (generateEntries sampleBookEmpty "2024-01-01T00:00:00Z").map ZipEntry.name =
      fixedEntryNames ∧
    resolutionContent sampleBookEmpty.pages = "-Infinityx-Infinity" ∧
    ∃ pre post : String,
      getContentOPF sampleBookEmpty "2024-01-01T00:00:00Z" =
        pre ++ "-Infinityx-Infinity" ++ post :=
  c2_empty_book_amended sampleBookEmpty "2024-01-01T00:00:00Z" rfl


theorem le_foldl_max (l : List Nat) (a : Nat) : ∀ x ∈ a :: l, x ≤ l.foldl Nat.max a := by
  induction l generalizing a with
  | nil =>
    intro x hx
    simp at hx
    simp [hx, List.foldl]
  | cons b t ih =>
    intro x hx
    have hh := ih (Nat.max a b)
    simp only [List.foldl]
    rcases List.mem_cons.mp hx with hxa | hx2
    · exact le_trans (hxa ▸ Nat.le_max_left a b) (hh _ (List.mem_cons_self _ _))
    · rcases List.mem_cons.mp hx2 with hxb | hxt
      · exact le_trans (hxb ▸ Nat.le_max_right a b) (hh _ (List.mem_cons_self _ _))
      · exact hh x (List.mem_cons_of_mem _ hxt)

theorem foldl_max_mem (l : List Nat) (a : Nat) : l.foldl Nat.max a ∈ a :: l := by
  induction l generalizing a with
  | nil => simp [List.foldl]
  | cons b t ih =>
    simp only [List.foldl]
    have hc : Nat.max a b = a ∨ Nat.max a b = b := by
      by_cases hab : a ≤ b
      · exact Or.inr (Nat.max_eq_right hab)
      · exact Or.inl (Nat.max_eq_left (Nat.le_of_not_le hab))
    have hh := ih (Nat.max a b)
    rcases hc with hm | hm <;> rw [hm] at hh ⊢ <;>
      rcases List.mem_cons.mp hh with h1 | h1 <;> simp [h1]

/-- C5: for every Book with at least one page, the declared
`original-resolution` content is `W x H` with `W` the maximum page width
and `H` the maximum page height, each computed independently over all
pages. -/
theorem c5_resolution_is_max (b : Book) (h : b.pages ≠ []) :
    ∃ W H : Nat,
      (∀ w ∈ b.pages.map PageData.width, w ≤ W) ∧
      W ∈ b.pages.map PageData.width ∧
      (∀ v ∈ b.pages.map PageData.height, v ≤ H) ∧
      H ∈ b.pages.map PageData.height ∧
      resolutionContent b.pages = Nat.repr W ++ "x" ++ Nat.repr H := by
  rcases hp : b.pages with _ | ⟨p, ps⟩
  · exact absurd hp h
  · refine ⟨(ps.map PageData.width).foldl Nat.max p.width,
      (ps.map PageData.height).foldl Nat.max p.height, ?_, ?_, ?_, ?_, ?_⟩
    · intro w hw
      simp only [List.map_cons] at hw
      exact le_foldl_max _ _ w hw
    · simpa using foldl_max_mem (ps.map PageData.width) p.width
    · intro v hv
      simp only [List.map_cons] at hv
      exact le_foldl_max _ _ v hv
    · simpa using foldl_max_mem (ps.map PageData.height) p.height
    · simp [resolutionContent, jsMaxNumStr]

/-- C5 witness: evaluated at the two-page sample book (widths 300, 310;
heights 400, 410). -/
theorem c5_resolution_is_max_witness :
    ∃ W H : Nat,
      (∀ w ∈ sampleBook2.pages.map PageData.width, w ≤ W) ∧
      W ∈ sampleBook2.pages.map PageData.width ∧
      (∀ v ∈ sampleBook2.pages.map PageData.height, v ≤ H) ∧
      H ∈ sampleBook2.pages.map PageData.height ∧
      resolutionContent sampleBook2.pages = Nat.repr W ++ "x" ++ Nat.repr H :=
  c5_resolution_is_max sampleBook2 (by decide)

/-- C6: for every Book with at least one page, exactly one manifest item
carries the `cover-image` property, namely the image item of the first
page. -/
theorem c6_cover_image_unique (b : Book) (h : b.pages ≠ []) :
    (manifestItems b.pages).filter (fun it => it.properties = "cover-image") =
      [⟨"img001", "images/page_001.png", "image/png", "cover-image"⟩] := by
  rcases hp : b.pages with _ | ⟨p, ps⟩
  · exact absurd hp h
  · rw [manifestItems, List.filter_append, List.filter_append]
    have h1 : fixedManifestItems.filter (fun it => it.properties = "cover-image") = [] := by
      decide
    have h2 : (pageManifestItems (p :: ps).length).filter
        (fun it => it.properties = "cover-image") = [] := by
      rw [List.filter_eq_nil_iff]
      intro it hit
      simp only [pageManifestItems, List.mem_map, List.mem_range] at hit
      rcases hit with ⟨i, _, hi⟩
      rw [← hi]
      simp
    have h3 : (imageManifestItems (p :: ps).length).filter
        (fun it => it.properties = "cover-image") =
        [⟨"img" ++ pad3 1, "images/page_" ++ pad3 1 ++ ".png", "image/png", "cover-image"⟩] := by
      rw [List.length_cons, imageManifestItems, List.range_succ_eq_map, List.map_cons]
      rw [List.filter_cons]
      have hz : ((if (0 : Nat) = 0 then "cover-image" else "") = "cover-image") := by decide
      simp only [if_pos rfl]
      have hrest : (((List.range ps.length).map Nat.succ).map fun i =>
          (⟨"img" ++ pad3 (i + 1), "images/page_" ++ pad3 (i + 1) ++ ".png", "image/png",
            if i = 0 then "cover-image" else ""⟩ : ManifestItem)).filter
          (fun it => it.properties = "cover-image") = [] := by
        rw [List.filter_eq_nil_iff]
        intro it hit
        simp only [List.map_map, List.mem_map, List.mem_range, Function.comp] at hit
        rcases hit with ⟨i, _, hi⟩
        rw [← hi]
        simp
      rw [hrest]
      simp
    rw [h1, h2, h3]
    simp only [List.nil_append]
    decide

/-- C6 witness: evaluated at the one-page sample book. -/
theorem c6_cover_image_unique_witness :
    (manifestItems sampleBook1.pages).filter (fun it => it.properties = "cover-image") =
      [⟨"img001", "images/page_001.png", "image/png", "cover-image"⟩] :=
  c6_cover_image_unique sampleBook1 (by decide)


set_option maxRecDepth 4000 in
theorem repr_length_le_three : ∀ m, m < 1000 → (Nat.repr m).length ≤ 3 := by decide

theorem pad3_length (m : Nat) (h : m ≤ 999) : (pad3 m).length = 3 := by
  have hr : (Nat.repr m).length ≤ 3 := repr_length_le_three m (by omega)
  rw [pad3, String.length_append]
  have hm : (String.mk (List.replicate (3 - (Nat.repr m).length) '0')).length =
      3 - (Nat.repr m).length := by
    show (List.replicate (3 - (Nat.repr m).length) '0').length = 3 - (Nat.repr m).length
    simp
  omega

/-- C8: for every Book with n pages, 1 ≤ n ≤ 999, the NCX holds exactly n
navigation points in page order with playOrder 1..n, labels `Page i`, and
zero-padded three-digit filenames `xhtml/page_NNN.xhtml`, and declares
both page-count metadata values equal to n. -/
theorem c8_ncx_navpoints (b : Book) (hn1 : 1 ≤ b.pages.length)
    (hn2 : b.pages.length ≤ 999) :
    (ncxNavPoints b.pages).length = b.pages.length ∧
    ncxTotalPageCount b.pages = b.pages.length ∧
    ncxMaxPageNumber b.pages = b.pages.length ∧
    ∀ i, i < b.pages.length →
      (ncxNavPoints b.pages)[i]? =
        some ⟨"navpoint" ++ Nat.repr (i + 1), i + 1, "Page " ++ Nat.repr (i + 1),
          "xhtml/page_" ++ pad3 (i + 1) ++ ".xhtml"⟩ ∧
      (pad3 (i + 1)).length = 3 := by
  refine ⟨by rw [ncxNavPoints, List.length_map, List.length_range], rfl, rfl, ?_⟩
  intro i hi
  constructor
  · rw [ncxNavPoints, List.getElem?_map, List.getElem?_range hi]
    rfl
  · exact pad3_length (i + 1) (by omega)

/-- C8 witness: the 12-page sample book, with the twelve zero-padded
filenames `page_001` .. `page_012` evaluated explicitly. -/
theorem c8_ncx_navpoints_witness :
    ((ncxNavPoints sampleBook12.pages).length = sampleBook12.pages.length ∧
      ncxTotalPageCount sampleBook12.pages = sampleBook12.pages.length ∧
      ncxMaxPageNumber sampleBook12.pages = sampleBook12.pages.length ∧
      ∀ i, i < sampleBook12.pages.length →
        (ncxNavPoints sampleBook12.pages)[i]? =
          some ⟨"navpoint" ++ Nat.repr (i + 1), i + 1, "Page " ++ Nat.repr (i + 1),
            "xhtml/page_" ++ pad3 (i + 1) ++ ".xhtml"⟩ ∧
        (pad3 (i + 1)).length = 3) ∧
    (ncxNavPoints sampleBook12.pages).map NavPoint.src =
      ["xhtml/page_001.xhtml", "xhtml/page_002.xhtml", "xhtml/page_003.xhtml",
       "xhtml/page_004.xhtml", "xhtml/page_005.xhtml", "xhtml/page_006.xhtml",
       "xhtml/page_007.xhtml", "xhtml/page_008.xhtml", "xhtml/page_009.xhtml",
       "xhtml/page_010.xhtml", "xhtml/page_011.xhtml", "xhtml/page_012.xhtml"] ∧
    (ncxNavPoints sampleBook12.pages).map NavPoint.playOrder =
      [1, 2, 3, 4, 5, 6, 7, 8, 9, 10, 11, 12] :=
  ⟨c8_ncx_navpoints sampleBook12 (by decide) (by decide), by decide, by decide⟩

theorem pageEntries_length (lang : String) (ps : List PageData) :
    (pageEntries lang ps).length = 2 * ps.length := by
  induction ps with
  | nil => rfl
  | cons p t ih =>
    simp only [pageEntries, List.length_cons, ih]
    omega

theorem pageNames_even (lang : String) (ps : List PageData) (i : Nat) (hi : i < ps.length) :
    ((pageEntries lang ps).map ZipEntry.name)[2 * i]? =
      some (xhtmlEntryName (ps.get ⟨i, hi⟩).pageNum) := by
  induction ps generalizing i with
  | nil => simp at hi
  | cons p t ih =>
    cases i with
    | zero => simp [pageEntries]
    | succ j =>
      have hj : j < t.length := by simpa using hi
      have harith : 2 * (j + 1) = 2 * j + 1 + 1 := by ring
      simp only [pageEntries, List.map_cons, harith, List.getElem?_cons_succ]
      exact ih j hj

theorem pageNames_odd (lang : String) (ps : List PageData) (i : Nat) (hi : i < ps.length) :
    ((pageEntries lang ps).map ZipEntry.name)[2 * i + 1]? =
      some (imageEntryName (ps.get ⟨i, hi⟩).pageNum) := by
  induction ps generalizing i with
  | nil => simp at hi
  | cons p t ih =>
    cases i with
    | zero => simp [pageEntries]
    | succ j =>
      have hj : j < t.length := by simpa using hi
      have harith : 2 * (j + 1) + 1 = 2 * j + 1 + 1 + 1 := by ring
      simp only [pageEntries, List.map_cons, harith, List.getElem?_cons_succ]
      exact ih j hj

/-- C3 counterexample: for a two-page Book (page numbers 1, 2) the archive
entry names do not follow the claimed "all markup documents, then all
images" sequence — the code interleaves each page's markup and image. -/
theorem c3_counterexample :
    (generateEntries sampleBook2 "2024-01-01T00:00:00Z").map ZipEntry.name ≠
      fixedEntryNames ++
        ["OEBPS/xhtml/page_001.xhtml", "OEBPS/xhtml/page_002.xhtml",
         "OEBPS/images/page_001.png", "OEBPS/images/page_002.png"] := by
  decide

/-- C3 amended: the archive entries are the six fixed entries in the §4.3
order followed by the page entries in page order, but with each page's
markup entry immediately followed by that page's image entry (interleaved
rather than two separate blocks); for a one-page Book this still yields
exactly 8 entries with `page_001` filenames. -/
theorem c3_entry_order_amended (b : Book) (now : String) :
    ((generateEntries b now).map ZipEntry.name).take 6 = fixedEntryNames ∧
    (generateEntries b now).length = 6 + 2 * b.pages.length ∧
    ∀ i, i < b.pages.length →
      (∀ hi : i < b.pages.length,
        ((generateEntries b now).map ZipEntry.name)[6 + 2 * i]? =
          some (xhtmlEntryName (b.pages.get ⟨i, hi⟩).pageNum) ∧
        ((generateEntries b now).map ZipEntry.name)[6 + 2 * i + 1]? =
          some (imageEntryName (b.pages.get ⟨i, hi⟩).pageNum)) := by
  refine ⟨?_, ?_, ?_⟩
  · simp [generateEntries, fixedEntries, fixedEntryNames]
  · simp [generateEntries, fixedEntries, pageEntries_length]
    omega
  · intro i _ hi
    have hmap : (generateEntries b now).map ZipEntry.name =
        fixedEntryNames ++ (pageEntries b.language b.pages).map ZipEntry.name := by
      simp [generateEntries, fixedEntries, fixedEntryNames]
    have hlen : (fixedEntryNames : List String).length = 6 := rfl
    constructor
    · rw [hmap, List.getElem?_append_right (by omega)]
      have : 6 + 2 * i - fixedEntryNames.length = 2 * i := by rw [hlen]; omega
      rw [this]
      exact pageNames_even b.language b.pages i hi
    · rw [hmap, List.getElem?_append_right (by omega)]
      have : 6 + 2 * i + 1 - fixedEntryNames.length = 2 * i + 1 := by rw [hlen]; omega
      rw [this]
      exact pageNames_odd b.language b.pages i hi

/-- C3 amended witness: the one-page sample book has exactly 8 entries,
named as in §4.3 with `page_001` filenames. -/
theorem c3_entry_order_amended_witness :
    (((generateEntries sampleBook1 "2024-01-01T00:00:00Z").map ZipEntry.name).take 6 =
      fixedEntryNames ∧
    (generateEntries sampleBook1 "2024-01-01T00:00:00Z").length =
      6 + 2 * sampleBook1.pages.length ∧
    ∀ i, i < sampleBook1.pages.length →
      (∀ hi : i < sampleBook1.pages.length,
        ((generateEntries sampleBook1 "2024-01-01T00:00:00Z").map ZipEntry.name)[6 + 2 * i]? =
          some (xhtmlEntryName (sampleBook1.pages.get ⟨i, hi⟩).pageNum) ∧
        ((generateEntries sampleBook1 "2024-01-01T00:00:00Z").map
            ZipEntry.name)[6 + 2 * i + 1]? =
          some (imageEntryName (sampleBook1.pages.get ⟨i, hi⟩).pageNum))) ∧
    (generateEntries sampleBook1 "2024-01-01T00:00:00Z").map ZipEntry.name =
      ["mimetype", "META-INF/container.xml", "OEBPS/content.opf", "OEBPS/toc.ncx",
       "OEBPS/nav.xhtml", "OEBPS/styles/fixed-layout.css",
       "OEBPS/xhtml/page_001.xhtml", "OEBPS/images/page_001.png"] :=
  ⟨c3_entry_order_amended sampleBook1 "2024-01-01T00:00:00Z", by decide⟩


theorem resolve_xhtml (m : Nat) :
    resolveOEBPS ("xhtml/page_" ++ pad3 m ++ ".xhtml") = xhtmlEntryName m := rfl

theorem resolve_img (m : Nat) :
    resolveOEBPS ("images/page_" ++ pad3 m ++ ".png") = imageEntryName m := rfl

theorem xhtml_name_mem (lang : String) (ps : List PageData) (i : Nat) (hi : i < ps.length) :
    xhtmlEntryName (ps.get ⟨i, hi⟩).pageNum ∈ (pageEntries lang ps).map ZipEntry.name :=
  List.mem_iff_getElem?.mpr ⟨2 * i, pageNames_even lang ps i hi⟩

theorem image_name_mem (lang : String) (ps : List PageData) (i : Nat) (hi : i < ps.length) :
    imageEntryName (ps.get ⟨i, hi⟩).pageNum ∈ (pageEntries lang ps).map ZipEntry.name :=
  List.mem_iff_getElem?.mpr ⟨2 * i + 1, pageNames_odd lang ps i hi⟩

/-- C9 counterexample: with two pages whose caller-supplied numbers are
swapped (2 then 1), every cross-document reference still resolves to a
present archive entry, yet the page numbers do not equal the insertion
positions — the claimed equivalence is false. -/
theorem c9_counterexample :
    ¬ ((∀ r ∈ referencedPageFiles sampleBookSwap,
          r ∈ (generateEntries sampleBookSwap "2024-01-01T00:00:00Z").map ZipEntry.name) ↔
        ∀ i, (hi : i < sampleBookSwap.pages.length) →
          (sampleBookSwap.pages.get ⟨i, hi⟩).pageNum = i + 1) := by
  decide

/-- C9 amended: archive page-file names come from the caller-supplied
`pageNum` while every cross-document reference is computed from the
1-based insertion position; IF each page's `pageNum` equals its insertion
position, then every reference resolves to an entry present in the
archive (the converse is false: a permuted numbering also resolves). -/
theorem c9_refs_resolve_amended (b : Book) (now : String)
    (h : ∀ i, (hi : i < b.pages.length) → (b.pages.get ⟨i, hi⟩).pageNum = i + 1) :
    ∀ r ∈ referencedPageFiles b, r ∈ (generateEntries b now).map ZipEntry.name := by
  have hmem : ∀ x : String, x ∈ (pageEntries b.language b.pages).map ZipEntry.name →
      x ∈ (generateEntries b now).map ZipEntry.name := by
    intro x hx
    simp only [generateEntries, List.map_append, List.mem_append]
    exact Or.inr hx
  have hx : ∀ i, i < b.pages.length →
      xhtmlEntryName (i + 1) ∈ (generateEntries b now).map ZipEntry.name := by
    intro i hi
    have hm := xhtml_name_mem b.language b.pages i hi
    rw [h i hi] at hm
    exact hmem _ hm
  have himg : ∀ i, i < b.pages.length →
      imageEntryName (i + 1) ∈ (generateEntries b now).map ZipEntry.name := by
    intro i hi
    have hm := image_name_mem b.language b.pages i hi
    rw [h i hi] at hm
    exact hmem _ hm
  intro r hr
  simp only [referencedPageFiles, pageManifestItems, imageManifestItems, ncxNavPoints,
    List.map_map, List.mem_append, List.mem_map, List.mem_range, Function.comp] at hr
  rcases hr with ((⟨i, hi, hrr⟩ | ⟨i, hi, hrr⟩) | ⟨i, hi, hrr⟩) | ⟨i, hi, hrr⟩
  · rw [← hrr, resolve_xhtml]
    exact hx i hi
  · rw [← hrr, resolve_img]
    exact himg i hi
  · rw [← hrr, resolve_xhtml]
    exact hx i hi
  · rw [← hrr, resolve_xhtml]
    exact hx i hi

/-- C9 amended witness: in the densely numbered two-page sample book the
second page's markup reference resolves to a present archive entry. -/
theorem c9_refs_resolve_amended_witness :
    "OEBPS/xhtml/page_002.xhtml" ∈
      (generateEntries sampleBook2 "2024-01-01T00:00:00Z").map ZipEntry.name :=
  c9_refs_resolve_amended sampleBook2 "2024-01-01T00:00:00Z" (by decide)
    "OEBPS/xhtml/page_002.xhtml" (by decide)


theorem uuidCharOk_hex (d : Nat) (h : d < 16) :
    uuidCharOk 'x' (Nat.digitChar d) = true := by
  simp only [uuidCharOk, if_pos rfl]
  interval_cases d <;> decide

theorem uuidCharOk_variant (d : Nat) (h : d < 16) :
    uuidCharOk 'y' (Nat.digitChar (d &&& 3 ||| 8)) = true := by
  simp only [uuidCharOk]
  norm_num
  interval_cases d <;> decide

theorem uuidCharOk_self (c : Char) (hx : c ≠ 'x') (hy : c ≠ 'y') :
    uuidCharOk c c = true := by
  simp [uuidCharOk, hx, hy]

theorem uuidGo_pattern (draws : Nat → Nat) (h : ∀ i, draws i < 16) :
    ∀ (tpl : List Char) (k : Nat),
      List.Forall₂ (fun t u => uuidCharOk t u = true) tpl (uuidGo draws k tpl) := by
  intro tpl
  induction tpl with
  | nil =>
    intro k
    simp [uuidGo]
  | cons c cs ih =>
    intro k
    by_cases hx : c = 'x'
    · subst hx
      have hstep : uuidGo draws k ('x' :: cs) =
          Nat.digitChar (draws k) :: uuidGo draws (k + 1) cs := by
        simp [uuidGo]
      rw [hstep]
      exact List.Forall₂.cons (uuidCharOk_hex (draws k) (h k)) (ih (k + 1))
    · by_cases hy : c = 'y'
      · subst hy
        have hstep : uuidGo draws k ('y' :: cs) =
            Nat.digitChar (draws k &&& 3 ||| 8) :: uuidGo draws (k + 1) cs := by
          simp [uuidGo]
        rw [hstep]
        exact List.Forall₂.cons (uuidCharOk_variant (draws k) (h k)) (ih (k + 1))
      · have hstep : uuidGo draws k (c :: cs) = c :: uuidGo draws k cs := by
          simp [uuidGo, hx, hy]
        rw [hstep]
        exact List.Forall₂.cons (uuidCharOk_self c hx hy) (ih k)

/-- C7: the Book identifier is generated exactly once at construction, the
generated value matches the `xxxxxxxx-xxxx-4xxx-yxxx-xxxxxxxxxxxx`
pattern for every stream of draws below 16 (hex digits at `x`, the literal
`4`, a variant digit in 8/9/a/b at `y`, hyphens in place), it is unchanged
by later edits of title, author or language, and the same `urn:uuid:` text
is embedded into the package document and the NCX. -/
theorem c7_uuid_pattern_and_stability :
    (∀ draws : Nat → Nat, (∀ i, draws i < 16) →
      List.Forall₂ (fun t u => uuidCharOk t u = true) uuidTemplate (generateUUID draws)) ∧
    (∀ (opts : EPUBOptions) (draws : Nat → Nat),
      (createBook opts draws).uuid = String.mk (generateUUID draws)) ∧
    (∀ (b : Book) (t a l : String),
      (setLanguage (setAuthor (setTitle b t) a) l).uuid = b.uuid ∧
      urnUUID (setLanguage (setAuthor (setTitle b t) a) l) = urnUUID b) ∧
    (∀ (b : Book) (now : String), ∃ pre post : String,
      getContentOPF b now = pre ++ urnUUID b ++ post) ∧
    (∀ b : Book, ∃ pre post : String, getNCX b = pre ++ urnUUID b ++ post) := by
  refine ⟨?_, fun opts draws => rfl, fun b t a l => ⟨rfl, rfl⟩, ?_, ?_⟩
  · intro draws h
    exact uuidGo_pattern draws h uuidTemplate 0
  · intro b now
    refine ⟨opfSeg1,
      opfSeg2 ++ escXML b.title ++ opfSeg3 ++ b.language ++ opfSeg4 ++ escXML b.author ++
        opfSeg5 ++ now ++ opfSeg6 ++ resolutionContent b.pages ++ opfTail b.pages, ?_⟩
    simp [getContentOPF, String.append_assoc]
  · intro b
    refine ⟨ncxSeg1,
      ncxSeg2 ++ Nat.repr (ncxTotalPageCount b.pages) ++ ncxSeg3 ++
        Nat.repr (ncxMaxPageNumber b.pages) ++ ncxSeg4 ++ escXML b.title ++ ncxSeg5 ++
        String.join ((ncxNavPoints b.pages).map renderNavPoint) ++ "  </navMap>\n</ncx>", ?_⟩
    simp [getNCX, String.append_assoc]

/-- C7 witness: the all-zero draw stream produces
`00000000-0000-4000-8000-000000000000`, matching the pattern. -/
theorem c7_uuid_pattern_and_stability_witness :
    List.Forall₂ (fun t u => uuidCharOk t u = true) uuidTemplate
      (generateUUID (fun _ => 0)) ∧
    generateUUID (fun _ => 0) = "00000000-0000-4000-8000-000000000000".toList :=
  ⟨c7_uuid_pattern_and_stability.1 (fun _ => 0) (fun _ => by show (0 : Nat) < 16; decide), by decide⟩

end PdfToEpub
